import Mathlib

/-!
Verification of the music library organizer (`music-organiser.py`).

The Python source is shallowly embedded: strings are `List Char` / `String`,
the filesystem is an explicit association of paths to contents plus a set of
directories, fallible operations take explicit failure flags (each flag marks
one operation in the `try:` block that may raise), and every function from the
source becomes a pure Lean function over that state.
-/

set_option autoImplicit false

namespace MusicOrganizer

/-! ### Python string primitives

`str.strip()` / `str.rstrip()` with no argument remove the Python whitespace
characters; `str.strip(' .')` removes spaces and dots from both ends. -/

/-- The ASCII whitespace characters stripped by Python's default `strip`. -/
def pyWhitespaceChars : List Char := [' ', '\t', '\n', '\r', '\x0b', '\x0c']

def isPyWS (c : Char) : Bool := pyWhitespaceChars.contains c

/-- Remove leading and trailing characters satisfying `p` (Python `strip`);
`List.rdropWhile` removes the trailing ones. -/
def stripBy (p : Char → Bool) (l : List Char) : List Char :=
  List.rdropWhile p (l.dropWhile p)

/-- Python `name.strip()`. -/
def pyStrip (l : List Char) : List Char := stripBy isPyWS l

/-- Python `name.rstrip()`. -/
def pyRStrip (l : List Char) : List Char := List.rdropWhile isPyWS l

/-- Membership in the strip set of `strip(' .')`. -/
def isSpaceOrDot (c : Char) : Bool := c = ' ' || c = '.'

/-- The reserved characters of the regex `[<>:"/\\|?*]` in `sanitize_filename`. -/
def invalidChars : List Char := ['<', '>', ':', '"', '/', '\\', '|', '?', '*']

/-- `re.sub(r'[<>:"/\\|?*]', '_', name)`: replace each reserved character by `_`. -/
def replaceInvalid (l : List Char) : List Char :=
  l.map (fun c => if invalidChars.contains c then '_' else c)

/-- `MusicOrganizer.sanitize_filename`, working on the character list of the
input.  Mirrors the Python body: empty/all-whitespace guard, reserved-character
replacement, `strip(' .')`, truncation to 200 with `rstrip()`, and the final
`or "Unknown"` fallback. -/
def sanitizeList (name : List Char) : List Char :=
  if name = [] ∨ pyStrip name = [] then "Unknown".data
  else
    let s1 := replaceInvalid name
    let s2 := stripBy isSpaceOrDot s1
    let s3 := if 200 < s2.length then pyRStrip (s2.take 200) else s2
    if s3 = [] then "Unknown".data else s3

/-- `MusicOrganizer.sanitize_filename` on `String`. -/
def sanitize_filename (name : String) : String := String.mk (sanitizeList name.data)

/-! ### Properties of the sanitizer -/

theorem stripBy_head_not (p : Char → Bool) (l : List Char) (c : Char)
    (h : (stripBy p l).head? = some c) : p c = false := by
  have hne : stripBy p l ≠ [] := by
    intro he
    rw [he] at h
    simp at h
  have hne2 : l.dropWhile p ≠ [] := by
    intro he
    unfold stripBy at hne
    rw [he] at hne
    simp [List.rdropWhile] at hne
  have hpre := List.rdropWhile_prefix p (l.dropWhile p)
  have hhead : (stripBy p l).head hne = (l.dropWhile p).head hne2 :=
    hpre.head hne
  have hc : (stripBy p l).head hne = c := by
    rwa [List.head?_eq_head hne, Option.some.injEq] at h
  rw [hc] at hhead
  rw [hhead]
  exact List.head_dropWhile_not p l hne2

theorem rdropWhile_getLast_not (p : Char → Bool) (l : List Char) (c : Char)
    (h : (List.rdropWhile p l).getLast? = some c) : p c = false := by
  have hne : List.rdropWhile p l ≠ [] := by
    intro he
    rw [he] at h
    simp at h
  have hc : (List.rdropWhile p l).getLast hne = c := by
    rwa [List.getLast?_eq_getLast _ hne, Option.some.injEq] at h
  have := List.rdropWhile_last_not p l hne
  rw [hc] at this
  simpa using this

theorem stripBy_getLast_not (p : Char → Bool) (l : List Char) (c : Char)
    (h : (stripBy p l).getLast? = some c) : p c = false :=
  rdropWhile_getLast_not p (l.dropWhile p) c h

theorem rdropWhile_head?_some (p : Char → Bool) (l : List Char) (c : Char)
    (h : (List.rdropWhile p l).head? = some c) : l.head? = some c := by
  obtain ⟨t, ht⟩ := List.rdropWhile_prefix p l
  rw [← ht]
  rw [List.head?_eq_some_iff] at h
  obtain ⟨ys, hys⟩ := h
  rw [hys]
  rfl

theorem stripBy_subset (p : Char → Bool) (l : List Char) : stripBy p l ⊆ l := by
  intro c hc
  exact (List.dropWhile_suffix p).subset ((List.rdropWhile_prefix p _).subset hc)

theorem mem_replaceInvalid_not_invalid (l : List Char) (c : Char)
    (h : c ∈ replaceInvalid l) : c ∉ invalidChars := by
  unfold replaceInvalid at h
  rw [List.mem_map] at h
  obtain ⟨a, -, rfl⟩ := h
  by_cases ha : invalidChars.contains a
  · simp only [ha, if_true]
    decide
  · simp only [ha, if_false, Bool.false_eq_true, ite_false]
    intro hmem
    exact ha (List.elem_eq_true_of_mem hmem)

theorem head?_take200 (l : List Char) (c : Char) (h : (l.take 200).head? = some c) :
    l.head? = some c := by
  cases l with
  | nil => simp at h
  | cons a t => simpa using h

/-- Case analysis on the control flow of `sanitize_filename`: the result is
either the literal `"Unknown"`, or the stripped string (when at most 200 long),
or the right-stripped 200-character truncation. -/
theorem sanitizeList_cases (name : List Char) :
    sanitizeList name = "Unknown".data ∨
    (sanitizeList name ≠ [] ∧
      ((sanitizeList name = stripBy isSpaceOrDot (replaceInvalid name) ∧
        (stripBy isSpaceOrDot (replaceInvalid name)).length ≤ 200) ∨
       sanitizeList name =
        pyRStrip ((stripBy isSpaceOrDot (replaceInvalid name)).take 200))) := by
  unfold sanitizeList
  by_cases hg : name = [] ∨ pyStrip name = []
  · rw [if_pos hg]
    exact Or.inl rfl
  · rw [if_neg hg]
    dsimp only
    by_cases hlen : 200 < (stripBy isSpaceOrDot (replaceInvalid name)).length
    · rw [if_pos hlen]
      by_cases hnil :
          pyRStrip ((stripBy isSpaceOrDot (replaceInvalid name)).take 200) = []
      · rw [if_pos hnil]
        exact Or.inl rfl
      · rw [if_neg hnil]
        exact Or.inr ⟨hnil, Or.inr rfl⟩
    · rw [if_neg hlen]
      by_cases hnil : stripBy isSpaceOrDot (replaceInvalid name) = []
      · rw [if_pos hnil]
        exact Or.inl rfl
      · rw [if_neg hnil]
        exact Or.inr ⟨hnil, Or.inl ⟨rfl, by omega⟩⟩

theorem unknownData_spec :
    ("Unknown".data ≠ ([] : List Char)) ∧
    (∀ c ∈ "Unknown".data, c ∉ invalidChars) ∧
    ("Unknown".data.length ≤ 200) ∧
    ("Unknown".data.head? ≠ some ' ') ∧
    ("Unknown".data.head? ≠ some '.') ∧
    ("Unknown".data.getLast? ≠ some ' ') := by
  refine ⟨by decide, ?_, by decide, by decide, by decide, by decide⟩
  intro c hc
  fin_cases hc <;> decide

/-- The truth about `sanitize_filename`, proved for every input: the result is
non-empty, free of the reserved characters, at most 200 characters long
(unconditionally), never starts with a space or a dot, and never ends with a
space.  (It can start or end with non-space whitespace such as tab, and can end
with a dot when the 200-character truncation applies.) -/
theorem sanitizeList_spec (name : List Char) :
    sanitizeList name ≠ [] ∧
    (∀ c ∈ sanitizeList name, c ∉ invalidChars) ∧
    (sanitizeList name).length ≤ 200 ∧
    (sanitizeList name).head? ≠ some ' ' ∧
    (sanitizeList name).head? ≠ some '.' ∧
    (sanitizeList name).getLast? ≠ some ' ' := by
  rcases sanitizeList_cases name with h | ⟨hne, hA | hB⟩
  · rw [h]
    exact unknownData_spec
  · obtain ⟨heq, hlen⟩ := hA
    rw [heq]
    refine ⟨heq ▸ hne, ?_, hlen, ?_, ?_, ?_⟩
    · intro c hc
      exact mem_replaceInvalid_not_invalid name c (stripBy_subset _ _ hc)
    · intro h
      have := stripBy_head_not isSpaceOrDot (replaceInvalid name) ' ' h
      simp [isSpaceOrDot] at this
    · intro h
      have := stripBy_head_not isSpaceOrDot (replaceInvalid name) '.' h
      simp [isSpaceOrDot] at this
    · intro h
      have := stripBy_getLast_not isSpaceOrDot (replaceInvalid name) ' ' h
      simp [isSpaceOrDot] at this
  · rw [hB]
    refine ⟨hB ▸ hne, ?_, ?_, ?_, ?_, ?_⟩
    · intro c hc
      have hc2 : c ∈ (stripBy isSpaceOrDot (replaceInvalid name)).take 200 :=
        (List.rdropWhile_prefix isPyWS _).subset hc
      have hc3 : c ∈ stripBy isSpaceOrDot (replaceInvalid name) :=
        List.take_subset 200 _ hc2
      exact mem_replaceInvalid_not_invalid name c (stripBy_subset _ _ hc3)
    · calc (pyRStrip ((stripBy isSpaceOrDot (replaceInvalid name)).take 200)).length
          ≤ ((stripBy isSpaceOrDot (replaceInvalid name)).take 200).length :=
            (List.rdropWhile_prefix isPyWS _).length_le
        _ ≤ 200 := by simp [List.length_take]
    · intro h
      have h1 := rdropWhile_head?_some isPyWS _ ' ' h
      have h2 := head?_take200 _ ' ' h1
      have := stripBy_head_not isSpaceOrDot (replaceInvalid name) ' ' h2
      simp [isSpaceOrDot] at this
    · intro h
      have h1 := rdropWhile_head?_some isPyWS _ '.' h
      have h2 := head?_take200 _ '.' h1
      have := stripBy_head_not isSpaceOrDot (replaceInvalid name) '.' h2
      simp [isSpaceOrDot] at this
    · intro h
      have := rdropWhile_getLast_not isPyWS _ ' ' h
      simp [isPyWS, pyWhitespaceChars] at this

set_option maxRecDepth 4000 in
/-- C1, counterexample to the claim as stated: `sanitize_filename "a\t"` ends
with the whitespace character `'\t'` (only spaces and dots are stripped after
character replacement), and on a 201-character input whose 200th character is a
dot the truncation re-exposes a trailing `'.'`. -/
theorem C1_counterexample :
    ((sanitize_filename "a\t").data.getLast? = some '\t' ∧ isPyWS '\t' = true) ∧
    (sanitizeList (List.replicate 199 'a' ++ ['.', 'x'])).getLast? = some '.' := by
  refine ⟨⟨rfl, by decide⟩, ?_⟩
  decide

/-- C1 (amended): for every input string `s`, `sanitize_filename s` returns a
non-empty string that contains none of the characters `< > : " / \ | ? *`, has
length at most 200 for every input (in particular whenever `len s > 200`), does
not start with a space or `'.'`, and does not end with a space.  (As the
counterexample shows, it can start or end with non-space whitespace such as
tab, and can end with `'.'` when the 200-character truncation applies.) -/
theorem C1_sanitize_safe (s : String) :
    sanitize_filename s ≠ "" ∧
    (∀ c ∈ (sanitize_filename s).data, c ∉ invalidChars) ∧
    (sanitize_filename s).data.length ≤ 200 ∧
    (sanitize_filename s).data.head? ≠ some ' ' ∧
    (sanitize_filename s).data.head? ≠ some '.' ∧
    (sanitize_filename s).data.getLast? ≠ some ' ' := by
  have h := sanitizeList_spec s.data
  refine ⟨?_, h.2.1, h.2.2.1, h.2.2.2.1, h.2.2.2.2.1, h.2.2.2.2.2⟩
  intro he
  apply h.1
  have hd : (sanitize_filename s).data = ("" : String).data := by rw [he]
  simpa [sanitize_filename] using hd

/-! ### Metadata extraction (`extract_metadata`, lines 60–95)

The tag container returned by `mutagen.File(..., easy=True)` is a mapping from
tag name to a list of string values; we model it as an association list with
the keys looked up front-to-back.  `audio[k][0]` on an empty value list raises
`IndexError`, modeled by `Except.error ()`; the surrounding `try`/`except` of
`extract_metadata` catches it. -/

abbrev Tags := List (String × List String)

/-- `k in audio` / `audio[k]`. -/
def lookupTag (tags : Tags) (k : String) : Option (List String) :=
  (tags.find? (fun e => e.1 == k)).map (fun e => e.2)

/-- Lines 80–81: `elif 'artist' in audio and audio['artist'][0]: artist = ...`,
with `artist` left `""` otherwise. -/
def artistFromArtistTag (tags : Tags) : Except Unit String :=
  match lookupTag tags "artist" with
  | none => Except.ok ""
  | some [] => Except.error ()
  | some (v :: _) => Except.ok (if v = "" then "" else v)

/-- Lines 77–81: `albumartist` prioritized over `artist`. -/
def selectArtist (tags : Tags) : Except Unit String :=
  match lookupTag tags "albumartist" with
  | none => artistFromArtistTag tags
  | some [] => Except.error ()
  | some (v :: _) => if v = "" then artistFromArtistTag tags else Except.ok v

/-- Lines 83–85: `album` selection. -/
def selectAlbum (tags : Tags) : Except Unit String :=
  match lookupTag tags "album" with
  | none => Except.ok ""
  | some [] => Except.error ()
  | some (v :: _) => Except.ok (if v = "" then "" else v)

/-- The result of the tag-reading call `File(str(file_path), easy=True)`:
`Except.error` models the call raising, `Except.ok none` models it returning
`None`. -/
abbrev TagRead := Except Unit (Option Tags)

/-- `MusicOrganizer.extract_metadata`. -/
def extract_metadata (read : TagRead) : String × String :=
  match read with
  | Except.error _ => ("Unknown Artist", "Unknown Album")
  | Except.ok none => ("Unknown Artist", "Unknown Album")
  | Except.ok (some tags) =>
    match selectArtist tags with
    | Except.error _ => ("Unknown Artist", "Unknown Album")
    | Except.ok artist =>
      match selectAlbum tags with
      | Except.error _ => ("Unknown Artist", "Unknown Album")
      | Except.ok album =>
        (if sanitize_filename artist = "" then "Unknown Artist"
          else sanitize_filename artist,
         if sanitize_filename album = "" then "Unknown Album"
          else sanitize_filename album)

/-! ### Filesystem model and `organize_file` -/

/-- A filesystem path, as its list of components. -/
abbrev FPath := List String

/-- The filesystem: existing files with their (opaque) contents, and existing
directories. -/
structure FS where
  files : List (FPath × Nat)
  dirs : List FPath
deriving DecidableEq

/-- `p.exists()`. -/
def fileExists (fs : FS) (p : FPath) : Bool := fs.files.any (fun e => e.1 == p)

/-- Content lookup, used to state what `shutil.copy2` copies. -/
def getContent (fs : FS) (p : FPath) : Option Nat :=
  (fs.files.find? (fun e => e.1 == p)).map (fun e => e.2)

/-- `p.unlink()` (successful case). -/
def removeFile (fs : FS) (p : FPath) : FS :=
  { fs with files := fs.files.filter (fun e => !(e.1 == p)) }

/-- `shutil.copy2 src dst` (successful case): `dst` now holds `src`'s
content. -/
def copyFile (fs : FS) (src dst : FPath) : FS :=
  { fs with files := (dst, (getContent fs src).getD 0) :: fs.files }

/-- `p.mkdir(parents=True, exist_ok=True)`: the directory and all its
ancestors exist afterwards. -/
def mkdirParents (fs : FS) (p : FPath) : FS :=
  { fs with dirs := p.inits ++ fs.dirs }

/-- `file_path.name`. -/
def baseName (p : FPath) : String := p.getLastD ""

/-- The four statistics counters of `MusicOrganizer.stats`. -/
structure Stats where
  processed : Nat
  duplicates : Nat
  spotdl_deleted : Nat
  errors : Nat
deriving DecidableEq

def initStats : Stats := ⟨0, 0, 0, 0⟩

/-- Per-file outcome (spec §9: Organized, DuplicateRemoved, SidecarDeleted,
Error). -/
inductive Outcome where
  | organized
  | duplicateRemoved
  | sidecarDeleted
  | error
deriving DecidableEq

/-- A filesystem mutation performed by `organize_file`, in order. -/
inductive Ev where
  | mkdirEv (p : FPath)
  | copyEv (src dst : FPath)
  | delEv (p : FPath)
deriving DecidableEq

/-- Failure injection for the fallible filesystem calls inside `organize_file`'s
`try:` block: a `true` flag makes that call raise (permission denied, disk
full, ...), which the `except` clause turns into an error outcome. -/
structure FileFail where
  unlinkDup : Bool
  mkdir : Bool
  copy : Bool
  unlinkSrc : Bool
deriving DecidableEq

def noFail : FileFail := ⟨false, false, false, false⟩

/-- Line 131: `album_path = self.destination_dir / artist / album`. -/
def album_path (destRoot : FPath) (read : TagRead) : FPath :=
  destRoot ++ [(extract_metadata read).1, (extract_metadata read).2]

/-- Line 132: `destination_file = album_path / file_path.name`. -/
def destination_file (destRoot : FPath) (read : TagRead) (src : FPath) : FPath :=
  album_path destRoot read ++ [baseName src]

/-- `MusicOrganizer.organize_file` (lines 118–155).  Returns the outcome, the
new filesystem, the new statistics, and the ordered list of successful
filesystem mutations.  `unlink` and `copy2` also raise when the source file
does not exist (a vanished source). -/
def organize_file (destRoot : FPath) (read : TagRead) (ff : FileFail)
    (src : FPath) (fs : FS) (st : Stats) : Outcome × FS × Stats × List Ev :=
  let albumPath := album_path destRoot read
  let dest := destination_file destRoot read src
  if fileExists fs dest then
    if ff.unlinkDup || !(fileExists fs src) then
      (Outcome.error, fs, { st with errors := st.errors + 1 }, [])
    else
      (Outcome.duplicateRemoved, removeFile fs src,
        { st with duplicates := st.duplicates + 1 }, [Ev.delEv src])
  else
    if ff.mkdir then
      (Outcome.error, fs, { st with errors := st.errors + 1 }, [])
    else
      let fs1 := mkdirParents fs albumPath
      if ff.copy || !(fileExists fs1 src) then
        (Outcome.error, fs1, { st with errors := st.errors + 1 },
          [Ev.mkdirEv albumPath])
      else
        let fs2 := copyFile fs1 src dest
        if ff.unlinkSrc then
          (Outcome.error, fs2, { st with errors := st.errors + 1 },
            [Ev.mkdirEv albumPath, Ev.copyEv src dest])
        else
          (Outcome.organized, removeFile fs2 src,
            { st with processed := st.processed + 1 },
            [Ev.mkdirEv albumPath, Ev.copyEv src dest, Ev.delEv src])

/-! ### Sidecar cleaner, dispatch, and the run coordinator -/

/-- `MusicOrganizer.handle_spotdl_file` (lines 101–116): delete the sidecar;
returns `True` on success, `False` (with `errors + 1`) when `unlink` raises. -/
def handle_spotdl_file (fail : Bool) (src : FPath) (fs : FS) (st : Stats) :
    Bool × FS × Stats :=
  if fail || !(fileExists fs src) then
    (false, fs, { st with errors := st.errors + 1 })
  else
    (true, removeFile fs src, { st with spotdl_deleted := st.spotdl_deleted + 1 })

/-- Python `name.rfind('.')`: index of the last dot. -/
def rfindDot : List Char → Option Nat
  | [] => none
  | c :: cs =>
    match rfindDot cs with
    | some i => some (i + 1)
    | none => if c = '.' then some 0 else none

/-- `pathlib.PurePath.suffix` of a file name: the final dot-led component;
empty when the name has no dot, when its only dot is leading, or when the dot
is the final character. -/
def pySuffix (name : String) : String :=
  match rfindDot name.data with
  | none => ""
  | some i =>
    if 0 < i ∧ i < name.data.length - 1 then String.mk (name.data.drop i) else ""

/-- Python `str.lower` (ASCII). -/
def pyLower (s : String) : String := String.mk (s.data.map Char.toLower)

/-- `self.music_extensions`. -/
def music_extensions : List String := [".mp3", ".m4a", ".flac", ".wav", ".ogg", ".wma"]

/-- `MusicOrganizer.is_music_file`: `file_path.suffix.lower() in
self.music_extensions`. -/
def is_music_file (filename : String) : Bool :=
  music_extensions.contains (pyLower (pySuffix filename))

/-- Python `s.endswith(post)` (case-sensitive). -/
def pyEndsWith (s post : String) : Bool :=
  s.data.drop (s.data.length - post.data.length) == post.data

/-- One candidate file from the external tree walk, together with the failure
injections for the operations performed on it. -/
structure FileInput where
  src : FPath
  read : TagRead
  ff : FileFail
  sidecarFail : Bool

/-- The per-file dispatch in `organize`'s walk loop (lines 191–197): sidecar
check first (on the raw name, case-sensitive), then the audio-extension check;
all other files are ignored. -/
def processFile (destRoot : FPath) (inp : FileInput) (fs : FS) (st : Stats) :
    FS × Stats :=
  if pyEndsWith (baseName inp.src) ".spotdl" then
    let r := handle_spotdl_file inp.sidecarFail inp.src fs st
    (r.2.1, r.2.2)
  else if is_music_file (baseName inp.src) then
    let r := organize_file destRoot inp.read inp.ff inp.src fs st
    (r.2.1, r.2.2.1)
  else
    (fs, st)

/-- The walk loop of `organize` (lines 188–197). -/
def runLoop (destRoot : FPath) (inputs : List FileInput) (fs : FS) (st : Stats) :
    FS × Stats :=
  match inputs with
  | [] => (fs, st)
  | inp :: rest =>
    let r := processFile destRoot inp fs st
    runLoop destRoot rest r.1 r.2

/-- `dir_path.iterdir()` yields nothing: no file or directory lies strictly
inside `d`. -/
def dirIsEmpty (fs : FS) (d : FPath) : Bool :=
  !(fs.files.any (fun e => d.isPrefixOf e.1 && !(e.1 == d))) &&
  !(fs.dirs.any (fun d2 => d.isPrefixOf d2 && !(d2 == d)))

/-- `MusicOrganizer.cleanup_empty_directories` (lines 157–170): the external
walk supplies the source-tree directories bottom-up; each one empty when
visited is removed (failures are only logged, no counter changes). -/
def cleanup_empty_directories (walkDirs : List FPath) (fs : FS) : FS :=
  match walkDirs with
  | [] => fs
  | d :: rest =>
    let fs' :=
      if dirIsEmpty fs d then
        { fs with dirs := fs.dirs.filter (fun d2 => !(d2 == d)) }
      else fs
    cleanup_empty_directories rest fs'

/-- `MusicOrganizer.organize` (lines 172–204) together with `main`'s exception
handling: the final `Nat` is the process exit status.  When the source
directory does not exist the method prints a diagnostic and returns before any
mutation; when creating the destination root raises, `main` catches the
exception and exits with status 1; otherwise the walk loop and the cleanup
pass run and the process exits with status 0. -/
def organize (src_dir_exists : Bool) (destMkdirFail : Bool) (destRoot : FPath)
    (inputs : List FileInput) (walkDirs : List FPath) (fs : FS) :
    FS × Stats × Nat :=
  if !src_dir_exists then (fs, initStats, 0)
  else if destMkdirFail then (fs, initStats, 1)
  else
    let fs0 := mkdirParents fs destRoot
    let r := runLoop destRoot inputs fs0 initStats
    (cleanup_empty_directories walkDirs r.1, r.2, 0)

/-! ### Basic facts about the filesystem model -/

@[simp] theorem files_mkdirParents (fs : FS) (p : FPath) :
    (mkdirParents fs p).files = fs.files := rfl

@[simp] theorem dirs_mkdirParents (fs : FS) (p : FPath) :
    (mkdirParents fs p).dirs = p.inits ++ fs.dirs := rfl

@[simp] theorem fileExists_mkdirParents (fs : FS) (p q : FPath) :
    fileExists (mkdirParents fs p) q = fileExists fs q := rfl

@[simp] theorem getContent_mkdirParents (fs : FS) (p q : FPath) :
    getContent (mkdirParents fs p) q = getContent fs q := rfl

@[simp] theorem dirs_removeFile (fs : FS) (p : FPath) :
    (removeFile fs p).dirs = fs.dirs := rfl

@[simp] theorem dirs_copyFile (fs : FS) (s d : FPath) :
    (copyFile fs s d).dirs = fs.dirs := rfl

theorem fileExists_removeFile (fs : FS) (p q : FPath) :
    fileExists (removeFile fs p) q = (fileExists fs q && !(q == p)) := by
  unfold fileExists removeFile
  dsimp only
  rw [List.any_filter]
  by_cases hqp : q = p
  · subst hqp
    simp
  · have : (q == p) = false := by simpa using hqp
    rw [this]
    simp only [Bool.not_false, Bool.and_true]
    congr 1
    funext e
    by_cases he : e.1 = q
    · subst he
      simp [hqp]
    · have h1 : (e.1 == q) = false := by simpa using he
      rw [h1]
      simp

theorem fileExists_copyFile (fs : FS) (s d q : FPath) :
    fileExists (copyFile fs s d) q = ((d == q) || fileExists fs q) := by
  unfold fileExists copyFile
  simp

theorem getContent_copyFile_self (fs : FS) (s d : FPath) :
    getContent (copyFile fs s d) d = some ((getContent fs s).getD 0) := by
  unfold getContent copyFile
  simp
  rfl

theorem getContent_removeFile_ne (fs : FS) (p q : FPath) (h : q ≠ p) :
    getContent (removeFile fs p) q = getContent fs q := by
  unfold getContent removeFile
  dsimp only
  congr 1
  induction fs.files with
  | nil => rfl
  | cons e t ih =>
    by_cases he : e.1 = q
    · subst he
      have h1 : (e.1 == p) = false := by simpa using h
      simp [List.find?_cons, h1, List.filter_cons]
    · have h1 : (e.1 == q) = false := by simpa using he
      by_cases hep : e.1 = p
      · have h2 : (p == q) = false := by simpa using Ne.symm h
        simp [List.filter_cons, hep, List.find?_cons, h1, ih, h2]
      · have h2 : (e.1 == p) = false := by simpa using hep
        simp [List.filter_cons, h2, List.find?_cons, h1, ih]

/-! ### Theorems for the metadata resolver claims -/

/-- C2: evaluation of the code at the failing input.  A readable tag container
with no `albumartist`/`artist`/`album` tags (or only empty first values) makes
`extract_metadata` return `("Unknown", "Unknown")` — not the claimed
`("Unknown Artist", "Unknown Album")` — because `sanitize_filename ""` returns
the truthy string `"Unknown"`, so the `or "Unknown Artist"` / `or
"Unknown Album"` fallbacks on lines 88–89 can never fire. -/
theorem C2_no_tags_behavior :
    extract_metadata (Except.ok (some [])) = ("Unknown", "Unknown") ∧
    extract_metadata (Except.ok (some [("artist", [""]), ("album", [""])])) =
      ("Unknown", "Unknown") ∧
    (("Unknown", "Unknown") : String × String) ≠
      ("Unknown Artist", "Unknown Album") := by
  refine ⟨rfl, rfl, by decide⟩

/-- C5, counterexample to the claim as stated: with `albumartist` present but
mapping to an empty value list, the claim's "otherwise" branch says the artist
should be the first `artist` value `"Track Artist"`; the code instead raises
`IndexError` on `audio['albumartist'][0]` and the handler returns the default
pair. -/
theorem C5_counterexample :
    extract_metadata
        (Except.ok (some [("albumartist", ([] : List String)),
          ("artist", ["Track Artist"])])) =
      ("Unknown Artist", "Unknown Album") ∧
    selectArtist [("albumartist", ([] : List String)), ("artist", ["Track Artist"])] =
      Except.error () := ⟨rfl, rfl⟩

/-- C5 (amended): the resolver selects the artist as the first value of
`albumartist` when that tag is present with a non-empty first value, otherwise
the first value of `artist` when present with a non-empty first value (and
`albumartist` is absent or its first value is the empty string); only the first
value of a multi-valued tag is consulted; a consulted tag mapping to an empty
value list instead raises, and the resolver returns the default pair.  In
particular `albumartist="Various"`, `artist="Track Artist"` resolves the artist
to `"Various"`. -/
theorem C5_artist_priority (tags : Tags) (v w : String) (vs ws : List String) :
    (lookupTag tags "albumartist" = some (v :: vs) → v ≠ "" →
      selectArtist tags = Except.ok v) ∧
    ((lookupTag tags "albumartist" = none ∨
      lookupTag tags "albumartist" = some ("" :: vs)) →
      lookupTag tags "artist" = some (w :: ws) → w ≠ "" →
      selectArtist tags = Except.ok w) ∧
    (extract_metadata (Except.ok (some [("albumartist", ["Various"]),
        ("artist", ["Track Artist"])]))).1 = "Various" := by
  refine ⟨?_, ?_, rfl⟩
  · intro h hv
    unfold selectArtist
    rw [h]
    simp [hv]
  · have hart : lookupTag tags "artist" = some (w :: ws) → w ≠ "" →
        artistFromArtistTag tags = Except.ok w := by
      intro h2 hw
      unfold artistFromArtistTag
      rw [h2]
      simp [hw]
    rintro (h | h) h2 hw
    · unfold selectArtist
      rw [h]
      exact hart h2 hw
    · unfold selectArtist
      rw [h]
      simp only [if_pos rfl]
      exact hart h2 hw

/-- Witness for C5: both hypothesis bundles discharged at concrete tag
containers. -/
theorem C5_artist_priority_witness :
    selectArtist [("albumartist", ["Various"]), ("artist", ["Track Artist"])] =
      Except.ok "Various" ∧
    selectArtist [("artist", ["Solo Artist"])] = Except.ok "Solo Artist" := by
  constructor
  · exact (C5_artist_priority
      [("albumartist", ["Various"]), ("artist", ["Track Artist"])]
      "Various" "x" [] []).1 rfl (by decide)
  · exact (C5_artist_priority [("artist", ["Solo Artist"])]
      "x" "Solo Artist" [] []).2.1 (Or.inl rfl) rfl (by decide)

/-! ### Branch equations for `organize_file` -/

/-- The duplicate branch (lines 135–139): destination exists, `unlink`
succeeds. -/
theorem organize_file_duplicate (destRoot : FPath) (read : TagRead) (src : FPath)
    (fs : FS) (st : Stats)
    (hdest : fileExists fs (destination_file destRoot read src) = true)
    (hsrc : fileExists fs src = true) :
    organize_file destRoot read noFail src fs st =
      (Outcome.duplicateRemoved, removeFile fs src,
        { st with duplicates := st.duplicates + 1 }, [Ev.delEv src]) := by
  unfold organize_file
  simp [hdest, hsrc, noFail]

/-- The organize branch (lines 141–150): destination fresh, all filesystem
calls succeed: create directories, copy, then delete the source. -/
theorem organize_file_fresh (destRoot : FPath) (read : TagRead) (src : FPath)
    (fs : FS) (st : Stats)
    (hdest : fileExists fs (destination_file destRoot read src) = false)
    (hsrc : fileExists fs src = true) :
    organize_file destRoot read noFail src fs st =
      (Outcome.organized,
        removeFile (copyFile (mkdirParents fs (album_path destRoot read)) src
          (destination_file destRoot read src)) src,
        { st with processed := st.processed + 1 },
        [Ev.mkdirEv (album_path destRoot read),
         Ev.copyEv src (destination_file destRoot read src), Ev.delEv src]) := by
  unfold organize_file
  simp [hdest, hsrc, noFail]

/-- C3: with the destination path already present, the decision engine deletes
the source and reports `DuplicateRemoved`, copying nothing and creating no
directory; existence of the path is the only signal consulted.  Hence for two
source files with the same base filename and the same resolved key (contents
arbitrary), the first is `Organized` and the second `DuplicateRemoved`; neither
remains in the source tree; exactly one copy — holding the first file's
content — sits at the destination path. -/
theorem C3_duplicate_removed (destRoot : FPath) (read1 read2 : TagRead)
    (p1 p2 : FPath) (fs : FS) (st : Stats)
    (hkey : extract_metadata read1 = extract_metadata read2)
    (hname : baseName p1 = baseName p2)
    (hdest : fileExists fs (destination_file destRoot read1 p1) = false)
    (hp1 : fileExists fs p1 = true) (hp2 : fileExists fs p2 = true)
    (hne : p1 ≠ p2)
    (hd1 : p1 ≠ destination_file destRoot read1 p1)
    (hd2 : p2 ≠ destination_file destRoot read1 p1) :
    (organize_file destRoot read1 noFail p1 fs st).1 = Outcome.organized ∧
    ((organize_file destRoot read2 noFail p2
        (organize_file destRoot read1 noFail p1 fs st).2.1
        (organize_file destRoot read1 noFail p1 fs st).2.2.1).1 =
      Outcome.duplicateRemoved ∧
     (organize_file destRoot read2 noFail p2
        (organize_file destRoot read1 noFail p1 fs st).2.1
        (organize_file destRoot read1 noFail p1 fs st).2.2.1).2.2.2 =
      [Ev.delEv p2] ∧
     (organize_file destRoot read2 noFail p2
        (organize_file destRoot read1 noFail p1 fs st).2.1
        (organize_file destRoot read1 noFail p1 fs st).2.2.1).2.1.dirs =
      (organize_file destRoot read1 noFail p1 fs st).2.1.dirs ∧
     fileExists (organize_file destRoot read2 noFail p2
        (organize_file destRoot read1 noFail p1 fs st).2.1
        (organize_file destRoot read1 noFail p1 fs st).2.2.1).2.1
        (destination_file destRoot read1 p1) = true ∧
     fileExists (organize_file destRoot read2 noFail p2
        (organize_file destRoot read1 noFail p1 fs st).2.1
        (organize_file destRoot read1 noFail p1 fs st).2.2.1).2.1 p1 = false ∧
     fileExists (organize_file destRoot read2 noFail p2
        (organize_file destRoot read1 noFail p1 fs st).2.1
        (organize_file destRoot read1 noFail p1 fs st).2.2.1).2.1 p2 = false ∧
     getContent (organize_file destRoot read2 noFail p2
        (organize_file destRoot read1 noFail p1 fs st).2.1
        (organize_file destRoot read1 noFail p1 fs st).2.2.1).2.1
        (destination_file destRoot read1 p1) = some ((getContent fs p1).getD 0) ∧
     ((organize_file destRoot read2 noFail p2
        (organize_file destRoot read1 noFail p1 fs st).2.1
        (organize_file destRoot read1 noFail p1 fs st).2.2.1).2.1.files.countP
          (fun e => e.1 == destination_file destRoot read1 p1)) = 1 ∧
     (organize_file destRoot read2 noFail p2
        (organize_file destRoot read1 noFail p1 fs st).2.1
        (organize_file destRoot read1 noFail p1 fs st).2.2.1).2.2.1 =
      { st with processed := st.processed + 1,
                duplicates := st.duplicates + 1 }) := by
  have hdd : destination_file destRoot read2 p2 = destination_file destRoot read1 p1 := by
    unfold destination_file album_path
    rw [hkey, hname]
  have h1 := organize_file_fresh destRoot read1 p1 fs st hdest hp1
  set d := destination_file destRoot read1 p1 with hd
  set ap := album_path destRoot read1 with hap
  -- state after the first call
  set fs1 : FS := removeFile (copyFile (mkdirParents fs ap) p1 d) p1 with hfs1
  have hr1fs : (organize_file destRoot read1 noFail p1 fs st).2.1 = fs1 := by
    rw [h1]
  have hr1st : (organize_file destRoot read1 noFail p1 fs st).2.2.1 =
      { st with processed := st.processed + 1 } := by
    rw [h1]
  have hfs1d : fileExists fs1 d = true := by
    rw [hfs1, fileExists_removeFile, fileExists_copyFile]
    simp [hd1, Ne.symm hd1]
  have hfs1p2 : fileExists fs1 p2 = true := by
    rw [hfs1, fileExists_removeFile, fileExists_copyFile]
    have : (p2 == p1) = false := by simpa using Ne.symm hne
    simp [this, hp2]
  have hdd2 : fileExists fs1 (destination_file destRoot read2 p2) = true := by
    rw [hdd]
    exact hfs1d
  have h2 := organize_file_duplicate destRoot read2 p2 fs1 { st with processed := st.processed + 1 } hdd2 hfs1p2
  refine ⟨by rw [h1], ?_⟩
  rw [hr1fs, hr1st, h2]
  have hfin_files : (removeFile fs1 p2).files =
      (d, (getContent fs p1).getD 0) ::
        ((fs.files.filter (fun e => !(e.1 == p1))).filter (fun e => !(e.1 == p2))) := by
    rw [hfs1]
    unfold removeFile copyFile mkdirParents getContent
    dsimp only
    have hb1 : (d == p1) = false := by simpa using Ne.symm hd1
    have hb2 : (d == p2) = false := by simpa using Ne.symm hd2
    simp [List.filter_cons, hb1, hb2]
  refine ⟨rfl, rfl, rfl, ?_, ?_, ?_, ?_, ?_, rfl⟩
  · rw [fileExists_removeFile, hfs1d]
    simp [Ne.symm hd2]
  · rw [fileExists_removeFile, hfs1, fileExists_removeFile, fileExists_copyFile]
    simp
  · rw [fileExists_removeFile]
    simp
  · have hne' : d ≠ p2 := Ne.symm hd2
    rw [getContent_removeFile_ne _ _ _ hne', hfs1]
    have hne'' : d ≠ p1 := Ne.symm hd1
    rw [getContent_removeFile_ne _ _ _ hne'']
    rw [getContent_copyFile_self]
    rfl
  · unfold removeFile at hfin_files ⊢
    dsimp only at hfin_files ⊢
    rw [hfin_files]
    rw [List.countP_cons]
    simp only [beq_self_eq_true, if_true]
    have hzero : (fs.files.filter (fun e => !(e.1 == p1))).countP (fun e => e.1 == d) = 0 := by
      rw [List.countP_eq_zero]
      intro a ha
      have ha' : a ∈ fs.files := List.mem_of_mem_filter ha
      have hany : fs.files.any (fun e => e.1 == d) = false := hdest
      have := List.any_eq_false.mp hany a ha'
      simpa using this
    have hzero2 : ((fs.files.filter (fun e => !(e.1 == p1))).filter
        (fun e => !(e.1 == p2))).countP (fun e => e.1 == d) = 0 := by
      rw [List.countP_eq_zero]
      intro a ha
      have ha' : a ∈ fs.files.filter (fun e => !(e.1 == p1)) := List.mem_of_mem_filter ha
      exact List.countP_eq_zero.mp hzero a ha'
    rw [hzero2]

/-- Concrete two-file filesystem for the C3 witness: the same base filename in
two source directories, with different contents. -/
def c3FS : FS :=
  ⟨[(["src", "song.mp3"], 1), (["src", "sub", "song.mp3"], 2)],
   [["src"], ["src", "sub"]]⟩

/-- Witness for C3: the hypotheses hold at a concrete two-file scenario and the
first file is organized while the second is removed as a duplicate. -/
theorem C3_duplicate_removed_witness :
    (organize_file ["Library"] (Except.ok none) noFail ["src", "song.mp3"] c3FS
        initStats).1 = Outcome.organized ∧
    (organize_file ["Library"] (Except.ok none) noFail ["src", "sub", "song.mp3"]
        (organize_file ["Library"] (Except.ok none) noFail ["src", "song.mp3"]
          c3FS initStats).2.1
        (organize_file ["Library"] (Except.ok none) noFail ["src", "song.mp3"]
          c3FS initStats).2.2.1).1 = Outcome.duplicateRemoved := by
  have h := C3_duplicate_removed ["Library"] (Except.ok none) (Except.ok none)
    ["src", "song.mp3"] ["src", "sub", "song.mp3"] c3FS initStats rfl rfl rfl rfl
    rfl (by decide) (by decide) (by decide)
  exact ⟨h.1, h.2.1⟩

/-- C4: in the organize branch (destination fresh), the source file is deleted
only in the run whose mutation trace is exactly
mkdir-then-copy-then-delete — so the source is never deleted before the copy
completed; any failing step yields the `Error` outcome with the source still
present and the error counter incremented, and directories already created are
left in place (no rollback); the walk loop then continues with the next
file. -/
theorem C4_copy_before_delete (destRoot : FPath) (read : TagRead) (ff : FileFail)
    (src : FPath) (fs : FS) (st : Stats)
    (hdest : fileExists fs (destination_file destRoot read src) = false)
    (hsrc : fileExists fs src = true) :
    (Ev.delEv src ∈ (organize_file destRoot read ff src fs st).2.2.2 →
      (organize_file destRoot read ff src fs st).2.2.2 =
        [Ev.mkdirEv (album_path destRoot read),
         Ev.copyEv src (destination_file destRoot read src), Ev.delEv src] ∧
      (organize_file destRoot read ff src fs st).1 = Outcome.organized) ∧
    ((organize_file destRoot read ff src fs st).1 = Outcome.error →
      fileExists (organize_file destRoot read ff src fs st).2.1 src = true ∧
      (organize_file destRoot read ff src fs st).2.2.1.errors = st.errors + 1 ∧
      (ff.mkdir = false →
        ∀ a ∈ (album_path destRoot read).inits,
          a ∈ (organize_file destRoot read ff src fs st).2.1.dirs)) ∧
    (∀ inp rest fs' st', runLoop destRoot (inp :: rest) fs' st' =
      runLoop destRoot rest (processFile destRoot inp fs' st').1
        (processFile destRoot inp fs' st').2) := by
  have hloop : ∀ (inp : FileInput) (rest : List FileInput) (fs' : FS) (st' : Stats),
      runLoop destRoot (inp :: rest) fs' st' =
        runLoop destRoot rest (processFile destRoot inp fs' st').1
          (processFile destRoot inp fs' st').2 := fun _ _ _ _ => rfl
  obtain ⟨fu, fm, fc, fd⟩ := ff
  have hsrc1 : fileExists (mkdirParents fs (album_path destRoot read)) src = true :=
    hsrc
  refine ⟨?_, ?_, hloop⟩ <;>
  · unfold organize_file
    cases fm <;> cases fc <;> cases fd <;>
      simp [hdest, hsrc, hsrc1, fileExists_copyFile, Bool.or_true] <;>
      exact fun a ha => Or.inl ha

/-- Witness for C4: a concrete run whose copy step fails leaves the source file
in place and counts one error. -/
theorem C4_copy_before_delete_witness :
    fileExists (organize_file ["Library"] (Except.ok none)
        ⟨false, false, true, false⟩ ["src", "t.mp3"]
        ⟨[(["src", "t.mp3"], 7)], [["src"]]⟩ initStats).2.1 ["src", "t.mp3"] =
      true ∧
    (organize_file ["Library"] (Except.ok none) ⟨false, false, true, false⟩
        ["src", "t.mp3"] ⟨[(["src", "t.mp3"], 7)], [["src"]]⟩
        initStats).2.2.1.errors = 1 := by
  have h := C4_copy_before_delete ["Library"] (Except.ok none)
    ⟨false, false, true, false⟩ ["src", "t.mp3"]
    ⟨[(["src", "t.mp3"], 7)], [["src"]]⟩ initStats rfl rfl
  have he := h.2.1 rfl
  exact ⟨he.1, he.2.1⟩

/-- C6: when the tag-reading call raises or returns `None`, `extract_metadata`
returns the default pair and never propagates the failure; the file proceeds to
the relocation engine, whose destination is
`destRoot/Unknown Artist/Unknown Album/<name>`; with the destination fresh and
no filesystem failure the outcome is `Organized`: the errors counter is
unchanged and the processed counter is incremented. -/
theorem C6_unreadable_metadata (read : TagRead) (destRoot src : FPath) (fs : FS)
    (st : Stats)
    (hread : read = Except.error () ∨ read = Except.ok none)
    (hdest : fileExists fs (destination_file destRoot read src) = false)
    (hsrc : fileExists fs src = true) :
    extract_metadata read = ("Unknown Artist", "Unknown Album") ∧
    destination_file destRoot read src =
      destRoot ++ ["Unknown Artist", "Unknown Album"] ++ [baseName src] ∧
    (organize_file destRoot read noFail src fs st).1 = Outcome.organized ∧
    (organize_file destRoot read noFail src fs st).2.2.1.errors = st.errors ∧
    (organize_file destRoot read noFail src fs st).2.2.1.processed =
      st.processed + 1 := by
  have hmd : extract_metadata read = ("Unknown Artist", "Unknown Album") := by
    rcases hread with h | h <;> rw [h] <;> rfl
  have h := organize_file_fresh destRoot read src fs st hdest hsrc
  refine ⟨hmd, ?_, ?_, ?_, ?_⟩
  · unfold destination_file album_path
    rw [hmd]
  · rw [h]
  · rw [h]
  · rw [h]

/-- Witness for C6: a concrete file whose tag read raises is organized, with
zero errors counted. -/
theorem C6_unreadable_metadata_witness :
    (organize_file ["Library"] (Except.error ()) noFail ["src", "t.mp3"]
        ⟨[(["src", "t.mp3"], 7)], [["src"]]⟩ initStats).1 = Outcome.organized ∧
    (organize_file ["Library"] (Except.error ()) noFail ["src", "t.mp3"]
        ⟨[(["src", "t.mp3"], 7)], [["src"]]⟩ initStats).2.2.1.errors = 0 := by
  have h := C6_unreadable_metadata (Except.error ()) ["Library"] ["src", "t.mp3"]
    ⟨[(["src", "t.mp3"], 7)], [["src"]]⟩ initStats (Or.inl rfl) rfl rfl
  exact ⟨h.2.2.1, h.2.2.2.1⟩

/-! ### Theorems for the sidecar, dispatch and run-level claims -/

/-- C7, counterexample to the claim as stated: when deletion of a `.spotdl`
file fails, `handle_spotdl_file` returns `False` — not true regardless of
success, as claimed (matching the function's own docstring: "True if
successfully deleted, False otherwise"). -/
theorem C7_counterexample :
    (handle_spotdl_file true ["src", "song.spotdl"]
      ⟨[(["src", "song.spotdl"], 0)], [["src"]]⟩ initStats).1 = false := rfl

/-- C7 (amended): a file whose name ends with `.spotdl` is always dispatched to
the sidecar cleaner and never reaches the metadata resolver or the relocation
engine — the walk loop's if/elif ignores the returned boolean.  Successful
deletion returns `True`, removes the file and increments `spotdl_deleted`; a
failed deletion returns `False` and increments `errors`. -/
theorem C7_sidecar_handling (destRoot : FPath) (inp : FileInput) (fs : FS)
    (st : Stats) (hspot : pyEndsWith (baseName inp.src) ".spotdl" = true) :
    processFile destRoot inp fs st =
      ((handle_spotdl_file inp.sidecarFail inp.src fs st).2.1,
       (handle_spotdl_file inp.sidecarFail inp.src fs st).2.2) ∧
    (inp.sidecarFail = false → fileExists fs inp.src = true →
      handle_spotdl_file inp.sidecarFail inp.src fs st =
        (true, removeFile fs inp.src,
          { st with spotdl_deleted := st.spotdl_deleted + 1 })) ∧
    (inp.sidecarFail = true →
      handle_spotdl_file inp.sidecarFail inp.src fs st =
        (false, fs, { st with errors := st.errors + 1 })) := by
  refine ⟨?_, ?_, ?_⟩
  · unfold processFile
    simp [hspot]
  · intro hf hex
    unfold handle_spotdl_file
    rw [hf, hex]
    simp
  · intro hf
    unfold handle_spotdl_file
    rw [hf]
    simp

/-- Witness for C7: a concrete `.spotdl` file is deleted by the sidecar
cleaner, counted under `spotdl_deleted`. -/
theorem C7_sidecar_handling_witness :
    processFile ["Library"] ⟨["src", "song.spotdl"], Except.ok none, noFail, false⟩
      ⟨[(["src", "song.spotdl"], 0)], [["src"]]⟩ initStats =
      (⟨[], [["src"]]⟩, ⟨0, 0, 1, 0⟩) := by
  have h := C7_sidecar_handling ["Library"]
    ⟨["src", "song.spotdl"], Except.ok none, noFail, false⟩
    ⟨[(["src", "song.spotdl"], 0)], [["src"]]⟩ initStats rfl
  rw [h.1, h.2.1 rfl rfl]
  rfl

/-- C8: a traversed file that is not a sidecar and whose extension, lowercased,
is not in the supported set is silently ignored by the per-file step: the
filesystem is untouched and none of the four counters changes. -/
theorem C8_unsupported_ignored (destRoot : FPath) (inp : FileInput) (fs : FS)
    (st : Stats)
    (hspot : pyEndsWith (baseName inp.src) ".spotdl" = false)
    (hext : music_extensions.contains (pyLower (pySuffix (baseName inp.src))) =
      false) :
    processFile destRoot inp fs st = (fs, st) := by
  have hm : is_music_file (baseName inp.src) = false := hext
  unfold processFile
  simp [hspot, hm]

/-- Witness for C8: a `.txt` file is left untouched with all counters
unchanged. -/
theorem C8_unsupported_ignored_witness :
    processFile ["Library"] ⟨["src", "notes.txt"], Except.ok none, noFail, false⟩
      ⟨[(["src", "notes.txt"], 3)], [["src"]]⟩ initStats =
      (⟨[(["src", "notes.txt"], 3)], [["src"]]⟩, initStats) :=
  C8_unsupported_ignored ["Library"]
    ⟨["src", "notes.txt"], Except.ok none, noFail, false⟩
    ⟨[(["src", "notes.txt"], 3)], [["src"]]⟩ initStats rfl rfl

theorem rfindDot_append (l1 l2 : List Char) (i : Nat) (h : rfindDot l2 = some i) :
    rfindDot (l1 ++ l2) = some (l1.length + i) := by
  induction l1 with
  | nil => simpa using h
  | cons c cs ih =>
    show rfindDot (c :: (cs ++ l2)) = _
    unfold rfindDot
    rw [ih]
    simp only [Option.some.injEq, List.length_cons]
    omega

/-- C9: sidecar recognition is case-sensitive while audio-extension recognition
is case-insensitive: a name of the form `<stem>.SPOTDL` fails the
`endswith('.spotdl')` check, its lowercased suffix `.spotdl` is not in the
supported audio set, and the per-file step ignores the file: no filesystem
action, no counter change. -/
theorem C9_upper_sidecar_ignored (destRoot : FPath) (stem : String)
    (inp : FileInput) (fs : FS) (st : Stats)
    (hname : baseName inp.src = stem ++ ".SPOTDL") :
    pyEndsWith (baseName inp.src) ".spotdl" = false ∧
    is_music_file (baseName inp.src) = false ∧
    processFile destRoot inp fs st = (fs, st) := by
  have hdata : (stem ++ ".SPOTDL").data = stem.data ++ ".SPOTDL".data :=
    String.data_append stem ".SPOTDL"
  have hfind : rfindDot (stem.data ++ ".SPOTDL".data) = some stem.data.length := by
    have h0 : rfindDot ".SPOTDL".data = some 0 := rfl
    simpa using rfindDot_append stem.data ".SPOTDL".data 0 h0
  have hEnds : pyEndsWith (stem ++ ".SPOTDL") ".spotdl" = false := by
    unfold pyEndsWith
    rw [hdata]
    have hlen : (stem.data ++ ".SPOTDL".data).length - (".spotdl" : String).data.length =
        stem.data.length := by
      simp [List.length_append]
    rw [hlen, List.drop_left]
    decide
  have hmusic : is_music_file (stem ++ ".SPOTDL") = false := by
    unfold is_music_file pySuffix
    rw [hdata, hfind]
    dsimp only
    by_cases h0 : stem.data = []
    · rw [if_neg]
      · decide
      · rw [h0]
        simp
    · have hpos : 0 < stem.data.length := List.length_pos.mpr h0
      have hlt : stem.data.length < (stem.data ++ ".SPOTDL".data).length - 1 := by
        simp only [List.length_append, List.length_cons, List.length_nil]
        omega
      rw [if_pos ⟨hpos, hlt⟩, List.drop_left]
      decide
  refine ⟨hname ▸ hEnds, hname ▸ hmusic, ?_⟩
  unfold processFile
  rw [hname]
  simp [hEnds, hmusic]

/-- Witness for C9: a concrete `.SPOTDL` file is neither deleted nor organized
and all counters stay unchanged. -/
theorem C9_upper_sidecar_ignored_witness :
    processFile ["Library"] ⟨["src", "x.SPOTDL"], Except.ok none, noFail, false⟩
      ⟨[(["src", "x.SPOTDL"], 3)], [["src"]]⟩ initStats =
      (⟨[(["src", "x.SPOTDL"], 3)], [["src"]]⟩, initStats) :=
  (C9_upper_sidecar_ignored ["Library"] "x"
    ⟨["src", "x.SPOTDL"], Except.ok none, noFail, false⟩
    ⟨[(["src", "x.SPOTDL"], 3)], [["src"]]⟩ initStats rfl).2.2

/-- C10: when the source directory does not exist, `organize` prints a
diagnostic and returns before any filesystem mutation: the destination root is
not created, no file is moved or deleted, all four statistics counters are
zero, and the process exit status is 0. -/
theorem C10_missing_source_dir (destMkdirFail : Bool) (destRoot : FPath)
    (inputs : List FileInput) (walkDirs : List FPath) (fs : FS) :
    organize false destMkdirFail destRoot inputs walkDirs fs =
      (fs, ⟨0, 0, 0, 0⟩, 0) := rfl

end MusicOrganizer
